import Mathlib

/-!
Verification of the reservation webhook client (`app/` package).

The development shallowly embeds the event-to-action dispatch logic of
`app/api.py` together with the payload models of `app/models.py`, the
signature gate of `app/services/security.py` and the BareMetalHost
manager of `app/services/kubernetes.py`.

Modelling conventions:
* timezone-aware instants are embedded as `Int` (only their order matters);
* external collaborators (host management, network switch, notification and
  audit-log HTTP clients) are outcome oracles packaged in an `Env` record,
  mirroring the dependency-injection reading of the source; every call the
  handler issues to a collaborator is recorded in an explicit trace of
  `Call` values, in issue order;
* a raised `HTTPException` is embedded as an error constructor of
  `HandlerResult`; a returned `JSONResponse` (HTTP 200) as `HandlerResult.ok`;
* Python truthiness tests on strings (`if s:`) are embedded as emptiness
  tests, and on optionals as a `match` on `Option`.
-/

/-- Model of Python `str.lower` (`payload.event_type.lower()` in `api.py`);
the event-type strings it is applied to are ASCII. -/
def pyLower (s : String) : String := ⟨s.data.map Char.toLower⟩

/-- `app/models.py` `Event`: one element of the `events` list of a batch
payload.  Timestamps are embedded as `Int` instants. -/
structure Event where
  event_id : String
  event_title : Option String := none
  event_description : Option String := none
  event_start : Int
  event_end : Int
  resource_id : Int
  resource_name : String
  resource_type : String
  resource_specs : Option String := none
  resource_location : Option String := none
  site_id : Option String := none
  site_name : Option String := none
deriving DecidableEq, Repr

/-- `app/models.py` `WebhookPayload`: the batch-shaped payload. -/
structure WebhookPayload where
  webhook_id : String
  event_type : String
  timestamp : Int
  event_count : Int
  user_id : Option String := none
  username : Option String := none
  email : Option String := none
  ssh_public_key : Option String := none
  events : List Event
  active_resources : Option (List Event) := none
deriving DecidableEq, Repr

/-- `app/models.py` `EventResourceInfo`. -/
structure EventResourceInfo where
  name : String
deriving DecidableEq, Repr

/-- `app/models.py` `EventData`: the `data` object of a deletion notice. -/
structure EventData where
  id : Int
  start : Int
  «end» : Int
  resource : EventResourceInfo
  keycloak_id : Option String := none
deriving DecidableEq, Repr

/-- `app/models.py` `EventWebhookPayload`: the EVENT_DELETED payload. -/
structure EventWebhookPayload where
  event_type : String
  timestamp : Int
  webhook_id : String
  data : EventData
deriving DecidableEq, Repr

/-- Outcome of the network-switch configuration collaborator
(`SwitchManager.configure_batch_network`): returned `True`, returned
`False`, or raised an exception. -/
inductive NetOutcome
  | ok
  | failed
  | raised
deriving DecidableEq, Repr

/-- One call issued to an external collaborator, in issue order. -/
inductive Call
  | provisionHost (resource : String) (sshKey : Option String)
  | deprovisionHost (resource : String)
  | notifyUser (webhookId userId resource : String) (success : Bool)
      (eventId : Option String)
  | webhookLog (webhookId eventType : String) (success : Bool)
      (statusCode : Nat) (resource : String) (userId : Option String)
      (eventId : Option String)
  | configureNetwork (resources : List String) (outcome : NetOutcome)
deriving DecidableEq, Repr

/-- Collaborator outcome oracles and configuration flags consumed by the
handler.  `provisionOk`/`deprovisionOk` give the boolean result of
`kubernetes.patch_baremetalhost` for a given resource name and event id. -/
structure Env where
  provisionOk : String → Option String → Bool
  deprovisionOk : String → Option String → Bool
  networkConfigEnabled : Bool
  netOutcome : NetOutcome

/-- One entry of `failed_event_details` in `handle_webhook`
(`{"event_id": ..., "resource_name": ..., "action": ...}`). -/
structure FailedDetail where
  event_id : String
  resource_name : String
  action : String
deriving DecidableEq, Repr

/-- Body of a `JSONResponse` (`{"status": ..., "message": ...}`). -/
structure JsonBody where
  status : String
  message : String
deriving DecidableEq, Repr

/-- Result of `handle_webhook`: a 200 `JSONResponse`, a raised
`HTTPException` (one constructor per raise site), or an uncaught Python
exception escaping the handler, surfaced by the framework as a generic
500.  The `deletionError` raise site (`api.py` lines 361-364) is
unreachable in this code: the active deletion branch raises
`AttributeError` first (see `handleDeletion`). -/
inductive HandlerResult
  | ok (body : JsonBody)
  | authError (statusCode : Nat) (detail : String)
  | batchError (statusCode : Nat) (eventType : String) (failedCount : Nat)
      (eventCount : Int) (failures : List FailedDetail)
  | deletionError (statusCode : Nat) (resourceName : String)
  | unhandledException (exc : String)
deriving DecidableEq, Repr

/-- `app/services/security.py` `verify_signature`.  The HMAC-SHA256/base64
primitive is out of scope and passed in as `hmacSigB64 secret body`;
`hmac.compare_digest` is embedded as string equality.  The body is a byte
list. -/
def verify_signature (hmacSigB64 : String → List Nat → String)
    (webhook_secret : Option String) (payload_body : List Nat)
    (signature_header : Option String) : Bool :=
  match webhook_secret with
  | none => true
  | some s =>
    if s = "" then true
    else
      match signature_header with
      | none => false
      | some h =>
        if h = "" then false
        else decide (h = hmacSigB64 s payload_body)

/-- Modelled from the spec: the class `WebhookSecurity` is instantiated by
`api.py` and exported by `app/services/__init__.py` but its definition is
not under `src/`.  Per the spec (§4.1 SignatureGate), with a configured
secret it returns false when the signature header is absent and otherwise
compares the header against the base64 HMAC-SHA256 of the raw body with
constant-time equality. -/
def WebhookSecurity.verify (hmacSigB64 : String → List Nat → String)
    (secret : String) (payload_body : List Nat)
    (signature_header : Option String) : Bool :=
  match signature_header with
  | none => false
  | some h => decide (h = hmacSigB64 secret payload_body)

/-- `app/api.py` `_verify_webhook_signature`: returns `some (status, detail)`
when it raises an `HTTPException`, `none` when the request passes the gate.
`if webhook_secret_value:` is Python truthiness on an optional string. -/
def verifyWebhookSignatureGate (hmacSigB64 : String → List Nat → String)
    (webhook_secret : Option String) (payload_body : List Nat)
    (signature : Option String) : Option (Nat × String) :=
  match webhook_secret with
  | none => none
  | some s =>
    if s = "" then none
    else if WebhookSecurity.verify hmacSigB64 s payload_body signature then none
    else some (403, "Invalid webhook signature")

/-- `app/api.py` `_create_batch_success_response`: message construction,
with Python truthiness on `user_id`. -/
def batchSuccessMessage (action : String) (count : Nat)
    (user_id : Option String) : String :=
  let user_str :=
    match user_id with
    | some u => if u = "" then "" else " for user " ++ u
    | none => ""
  "Batch " ++ action ++ " initiated for " ++ toString count ++ " events" ++
    user_str ++ "."

/-- `payload.user_id or "unknown"` in the EVENT_START branch. -/
def batchUserId (user_id : Option String) : String :=
  match user_id with
  | some u => if u = "" then "unknown" else u
  | none => "unknown"

/-- `app/api.py` `_handle_provision_event`: issues the provisioning call and
the per-resource notification/webhook-log side effects, returning the
boolean outcome and the trace of collaborator calls. -/
def handleProvisionEvent (env : Env) (resource_name : String)
    (ssh_public_key : Option String) (webhook_id : String) (user_id : String)
    (event_id : Option String) : Bool × List Call :=
  let success := env.provisionOk resource_name event_id
  let idsTruthy := webhook_id ≠ "" ∧ user_id ≠ ""
  let sideCalls :=
    if success then
      if idsTruthy then
        [Call.webhookLog webhook_id "EVENT_START" true 200 resource_name
          (some user_id) event_id]
      else []
    else
      if idsTruthy then
        [Call.notifyUser webhook_id user_id resource_name false event_id,
         Call.webhookLog webhook_id "EVENT_START" false 500 resource_name
           (some user_id) event_id]
      else []
  (success, Call.provisionHost resource_name ssh_public_key :: sideCalls)

/-- `app/api.py` `_handle_deprovision_event`: issues the deprovisioning call
and, when a webhook id is present, one webhook-log side effect. -/
def handleDeprovisionEvent (env : Env) (resource_name : String)
    (event_id : Option String) (webhook_id : Option String)
    (user_id : Option String) : Bool × List Call :=
  let success := env.deprovisionOk resource_name event_id
  let widTruthy : Bool :=
    match webhook_id with | some w => decide (w ≠ "") | none => false
  let sideCalls :=
    if widTruthy then
      [Call.webhookLog (webhook_id.getD "") "EVENT_END" success
        (if success then 200 else 500) resource_name user_id event_id]
    else []
  (success, Call.deprovisionHost resource_name :: sideCalls)

/-- `app/api.py` `_post_batch_provision_actions`: the network-configuration
hook, only run when enabled.  When `active_resources` is `None`, building
the generator appended to `resource_names` raises a `TypeError` inside the
`try` block, so the switch call is never issued; every failure mode
(returned `False` or raised exception) is absorbed and nothing is raised to
the caller. -/
def postBatchProvisionActions (env : Env) (events : List Event)
    (active_resources : Option (List Event)) : List Call :=
  if env.networkConfigEnabled then
    match active_resources with
    | none => []
    | some _ =>
      [Call.configureNetwork (events.map (fun e => e.resource_name))
        env.netOutcome]
  else []

/-- The EVENT_START loop of `handle_webhook`: per event, attempt the
provision, count successes, collect `failed_event_details` entries and the
list of successfully provisioned events, all in input order. -/
def startLoop (env : Env) (ssh : Option String) (wid uid : String) :
    List Event → Nat × List FailedDetail × List Event × List Call
  | [] => (0, [], [], [])
  | e :: rest =>
    let r := handleProvisionEvent env e.resource_name ssh wid uid (some e.event_id)
    let acc := startLoop env ssh wid uid rest
    if r.1 then
      (acc.1 + 1, acc.2.1, e :: acc.2.2.1, r.2 ++ acc.2.2.2)
    else
      (acc.1,
       { event_id := e.event_id, resource_name := e.resource_name,
         action := "provision" } :: acc.2.1,
       acc.2.2.1, r.2 ++ acc.2.2.2)

/-- The EVENT_END loop of `handle_webhook`. -/
def endLoop (env : Env) (wid : String) (uid : Option String) :
    List Event → Nat × List FailedDetail × List Call
  | [] => (0, [], [])
  | e :: rest =>
    let r := handleDeprovisionEvent env e.resource_name (some e.event_id)
      (some wid) uid
    let acc := endLoop env wid uid rest
    if r.1 then
      (acc.1 + 1, acc.2.1, r.2 ++ acc.2.2)
    else
      (acc.1,
       { event_id := e.event_id, resource_name := e.resource_name,
         action := "deprovision" } :: acc.2.1,
       r.2 ++ acc.2.2)

/-- Tail of the batch branch of `handle_webhook`: raise the aggregated 500
`HTTPException` when `failed_event_details` is non-empty, otherwise return
the batch success response. -/
def finishBatch (p : WebhookPayload) (processed : Nat)
    (fails : List FailedDetail) (tr : List Call) : HandlerResult × List Call :=
  if fails = [] then
    (HandlerResult.ok
      { status := "success",
        message := batchSuccessMessage (pyLower p.event_type) processed p.user_id },
     tr)
  else
    (HandlerResult.batchError 500 p.event_type fails.length p.event_count fails,
     tr)

/-- The `WebhookPayload` (batch) branch of `app/api.py` `handle_webhook`. -/
def handleBatch (env : Env) (p : WebhookPayload) : HandlerResult × List Call :=
  if p.events = [] then
    (HandlerResult.ok
      { status := "success",
        message := batchSuccessMessage (pyLower p.event_type) 0 p.user_id },
     [])
  else if p.event_type = "EVENT_START" then
    let r := startLoop env p.ssh_public_key p.webhook_id (batchUserId p.user_id)
      p.events
    let postTr :=
      if r.2.2.1 = [] then []
      else postBatchProvisionActions env r.2.2.1 p.active_resources
    finishBatch p r.1 r.2.1 (r.2.2.2 ++ postTr)
  else if p.event_type = "EVENT_END" then
    let r := endLoop env p.webhook_id p.user_id p.events
    finishBatch p r.1 r.2.1 r.2.2
  else
    finishBatch p 0 [] []

/-- The `EventWebhookPayload` (deletion) branch of `handle_webhook`.  `now`
is the payload timestamp; the activation test is the inline comparison
`reservation_start <= now < reservation_end`.  On the active branch,
building the arguments of `_handle_deprovision_event` evaluates
`payload.data.keycloakId` (`api.py` line 352); the pydantic field is
`keycloak_id` and its alias affects parsing only, so this attribute read
raises `AttributeError` before `_handle_deprovision_event` is invoked: the
request fails with an unhandled exception, no collaborator call is issued,
and the deprovision/success/500 code at `api.py` lines 348-364 is
unreachable. -/
def handleDeletion (env : Env) (p : EventWebhookPayload) :
    HandlerResult × List Call :=
  if p.event_type = "EVENT_DELETED" then
    let now := p.timestamp
    let reservation_start := p.data.start
    let reservation_end := p.data.«end»
    if reservation_start ≤ now ∧ now < reservation_end then
      (HandlerResult.unhandledException "AttributeError: keycloakId", [])
    else
      (HandlerResult.ok
        { status := "success",
          message := "No deprovision action taken for resource \x27" ++
            p.data.resource.name ++
            "\x27 as reservation is not currently active." },
       [])
  else
    (HandlerResult.ok
      { status := "success",
        message := "No action needed for event type \x27" ++ p.event_type ++
          "\x27." },
     [])

/-- The `Union[WebhookPayload, EventWebhookPayload]` request body. -/
inductive Payload
  | batch (p : WebhookPayload)
  | deletion (p : EventWebhookPayload)
deriving DecidableEq, Repr

/-- `app/api.py` `handle_webhook`: signature gate first, then dispatch on
the payload shape. -/
def handle_webhook (env : Env) (hmacSigB64 : String → List Nat → String)
    (webhook_secret : Option String) (raw_body : List Nat)
    (x_webhook_signature : Option String) (payload : Payload) :
    HandlerResult × List Call :=
  match verifyWebhookSignatureGate hmacSigB64 webhook_secret raw_body
      x_webhook_signature with
  | some e => (HandlerResult.authError e.1 e.2, [])
  | none =>
    match payload with
    | Payload.batch p => handleBatch env p
    | Payload.deletion p => handleDeletion env p

/-- The spec ActivationWindowEvaluator: `start <= now < end`, the predicate
inlined at the deletion branch of `handle_webhook`. -/
def is_active (now start «end» : Int) : Bool :=
  decide (start ≤ now ∧ now < «end»)

/-- Is this trace entry a host-management (provision/deprovision) call? -/
def isHostCall : Call → Bool
  | Call.provisionHost _ _ => true
  | Call.deprovisionHost _ => true
  | _ => false

/-- The host-management calls of a trace, in issue order. -/
def hostCalls (calls : List Call) : List Call := calls.filter isHostCall

/-- Does the trace contain a deprovision call? -/
def attemptsDeprovision (calls : List Call) : Bool :=
  calls.any fun c => match c with
    | Call.deprovisionHost _ => true
    | _ => false

/-- Does this event fail in a START batch under the environment? -/
def startFails (env : Env) (e : Event) : Bool :=
  !(env.provisionOk e.resource_name (some e.event_id))

/-- Does this event fail in an END batch under the environment? -/
def endFails (env : Env) (e : Event) : Bool :=
  !(env.deprovisionOk e.resource_name (some e.event_id))

/-- A raw (pre-validation) `Event` object: every field may be absent.
JSON-level type checking is out of scope; field presence is what the
claims depend on. -/
structure RawEvent where
  eventId : Option String := none
  eventTitle : Option String := none
  eventDescription : Option String := none
  eventStart : Option Int := none
  eventEnd : Option Int := none
  resourceId : Option Int := none
  resourceName : Option String := none
  resourceType : Option String := none
  resourceSpecs : Option String := none
  resourceLocation : Option String := none
  siteId : Option String := none
  siteName : Option String := none
deriving DecidableEq, Repr

/-- A raw (pre-validation) `WebhookPayload` object. -/
structure RawWebhookPayload where
  webhookId : Option String := none
  eventType : Option String := none
  timestamp : Option Int := none
  eventCount : Option Int := none
  userId : Option String := none
  username : Option String := none
  email : Option String := none
  sshPublicKey : Option String := none
  events : Option (List RawEvent) := none
  activeResources : Option (List RawEvent) := none
deriving DecidableEq, Repr

/-- Pydantic's required-field check: `Field(...)` fields must be present. -/
def requireField {α : Type} (v : Option α) (name : String) :
    Except String α :=
  match v with
  | some a => Except.ok a
  | none => Except.error (name ++ ": Field required")

/-- Validation of one `Event` per `app/models.py`: `eventId`, `eventStart`,
`eventEnd`, `resourceId`, `resourceName` and `resourceType` are required,
the rest default to `None`. -/
def validateEvent (r : RawEvent) : Except String Event :=
  match r.eventId with
  | none => Except.error "eventId: Field required"
  | some eid =>
  match r.eventStart with
  | none => Except.error "eventStart: Field required"
  | some es =>
  match r.eventEnd with
  | none => Except.error "eventEnd: Field required"
  | some ee =>
  match r.resourceId with
  | none => Except.error "resourceId: Field required"
  | some rid =>
  match r.resourceName with
  | none => Except.error "resourceName: Field required"
  | some rn =>
  match r.resourceType with
  | none => Except.error "resourceType: Field required"
  | some rt =>
    Except.ok
      { event_id := eid, event_title := r.eventTitle,
        event_description := r.eventDescription, event_start := es,
        event_end := ee, resource_id := rid, resource_name := rn,
        resource_type := rt, resource_specs := r.resourceSpecs,
        resource_location := r.resourceLocation, site_id := r.siteId,
        site_name := r.siteName }

/-- Validation of a `WebhookPayload` per `app/models.py`: `webhookId`,
`eventType`, `timestamp`, `eventCount` and `events` are required, the
user fields and `activeResources` are optional; nested events are
validated elementwise.  There is no cross-field check between
`eventCount` and the length of `events`. -/
def validateWebhookPayload (r : RawWebhookPayload) :
    Except String WebhookPayload :=
  match r.webhookId with
  | none => Except.error "webhookId: Field required"
  | some wid =>
  match r.eventType with
  | none => Except.error "eventType: Field required"
  | some et =>
  match r.timestamp with
  | none => Except.error "timestamp: Field required"
  | some ts =>
  match r.eventCount with
  | none => Except.error "eventCount: Field required"
  | some ec =>
  match r.events with
  | none => Except.error "events: Field required"
  | some revs =>
  match revs.mapM validateEvent with
  | Except.error e => Except.error e
  | Except.ok evs =>
  match r.activeResources with
  | none =>
    Except.ok
      { webhook_id := wid, event_type := et, timestamp := ts,
        event_count := ec, user_id := r.userId, username := r.username,
        email := r.email, ssh_public_key := r.sshPublicKey, events := evs,
        active_resources := none }
  | some rars =>
    match rars.mapM validateEvent with
    | Except.error e => Except.error e
    | Except.ok ars =>
      Except.ok
        { webhook_id := wid, event_type := et, timestamp := ts,
          event_count := ec, user_id := r.userId, username := r.username,
          email := r.email, ssh_public_key := r.sshPublicKey, events := evs,
          active_resources := some ars }

namespace Kube

/-- Outcome of `CoreV1Api.create_namespaced_secret`: success, an
`ApiException` with a status code, or some other raised exception. -/
inductive CreateSecretResult
  | ok
  | apiError (statusCode : Nat)
  | exn
deriving DecidableEq, Repr

/-- Kubernetes API oracles for `app/services/kubernetes.py`:
`patchSecretOk name = false` models `patch_namespaced_secret` raising (the
outer handler absorbs it into `False`); `patchHostOk name = false` models
`patch_namespaced_custom_object` raising. -/
structure K8sEnv where
  createSecretResult : String → CreateSecretResult
  patchSecretOk : String → Bool
  patchHostOk : String → Bool

/-- Body of a BareMetalHost patch (`_create_provision_patch` /
`_create_deprovision_patch`); the cloud-config secret payload is opaque to
the control flow and elided. -/
inductive HostPatch
  | provisionPatch (image_url : String) (checksum : Option String)
      (checksum_type : Option String) (userDataName : String)
  | deprovisionPatch
deriving DecidableEq, Repr

/-- One Kubernetes API call, in issue order. -/
inductive K8sOp
  | createSecret (name : String)
  | patchSecret (name : String)
  | patchHost (name : String) (patch : HostPatch)
deriving DecidableEq, Repr

/-- `UserDataSecretManager.create_or_update`: try to create the
`<bmh>-userdata` secret; on a 409 `ApiException` patch the existing one;
any other `ApiException` or unexpected exception yields `False`. -/
def create_or_update (kenv : K8sEnv) (bmh_name ssh_key : String) :
    Bool × List K8sOp :=
  let secret_name := bmh_name ++ "-userdata"
  match kenv.createSecretResult secret_name with
  | CreateSecretResult.ok => (true, [K8sOp.createSecret secret_name])
  | CreateSecretResult.apiError status =>
    if status = 409 then
      (kenv.patchSecretOk secret_name,
       [K8sOp.createSecret secret_name, K8sOp.patchSecret secret_name])
    else
      (false, [K8sOp.createSecret secret_name])
  | CreateSecretResult.exn => (false, [K8sOp.createSecret secret_name])

/-- `BareMetalHostManager._create_provision_patch`. -/
def _create_provision_patch (image_url bmh_name : String)
    (checksum checksum_type : Option String) : HostPatch :=
  HostPatch.provisionPatch image_url checksum checksum_type
    (bmh_name ++ "-userdata")

/-- `BareMetalHostManager._apply_patch`: one
`patch_namespaced_custom_object` call whose exceptions are absorbed into
`False`. -/
def _apply_patch (kenv : K8sEnv) (bmh_name : String) (patch : HostPatch) :
    Bool × List K8sOp :=
  (kenv.patchHostOk bmh_name, [K8sOp.patchHost bmh_name patch])

/-- `BareMetalHostManager.provision`: when a (truthy) SSH key is supplied,
first create or update the userdata secret and abort on failure; only then
build and apply the provisioning patch. -/
def provision (kenv : K8sEnv) (bmh_name image_url : String)
    (ssh_key : Option String) (checksum checksum_type : Option String) :
    Bool × List K8sOp :=
  let doPatch :=
    _apply_patch kenv bmh_name
      (_create_provision_patch image_url bmh_name checksum checksum_type)
  match ssh_key with
  | some k =>
    if k = "" then doPatch
    else
      let s := create_or_update kenv bmh_name k
      if s.1 then (doPatch.1, s.2 ++ doPatch.2) else (false, s.2)
  | none => doPatch

/-- `BareMetalHostManager.deprovision`. -/
def deprovision (kenv : K8sEnv) (bmh_name : String) : Bool × List K8sOp :=
  _apply_patch kenv bmh_name HostPatch.deprovisionPatch

end Kube

/-- Fixture: trivial HMAC oracle (never consulted when no secret is set). -/
def hmac0 : String → List Nat → String := fun _ _ => ""

/-- Fixture: a first reservation event. -/
def ev1 : Event :=
  { event_id := "e1", event_start := 0, event_end := 10, resource_id := 1,
    resource_name := "srv1", resource_type := "server" }

/-- Fixture: a second reservation event. -/
def ev2 : Event :=
  { event_id := "e2", event_start := 0, event_end := 10, resource_id := 2,
    resource_name := "srv2", resource_type := "server" }

/-- Fixture: all collaborator calls succeed, network configuration off. -/
def envAllOk : Env :=
  { provisionOk := fun _ _ => true, deprovisionOk := fun _ _ => true,
    networkConfigEnabled := false, netOutcome := NetOutcome.ok }

/-- Fixture: provisioning fails for resource `srv2` only. -/
def envSrv2Fails : Env :=
  { provisionOk := fun r _ => decide (r ≠ "srv2"),
    deprovisionOk := fun _ _ => true,
    networkConfigEnabled := false, netOutcome := NetOutcome.ok }

/-- Fixture: a two-event START batch. -/
def pStart2 : WebhookPayload :=
  { webhook_id := "w1", event_type := "EVENT_START", timestamp := 0,
    event_count := 2, user_id := some "u1", events := [ev1, ev2] }

/-- Fixture: a batch-shaped payload with an unrecognized event type. -/
def pUnknown : WebhookPayload :=
  { webhook_id := "w1", event_type := "EVENT_FOO", timestamp := 0,
    event_count := 1, user_id := some "u1", events := [ev1] }

/-- Fixture: an empty batch. -/
def pEmpty : WebhookPayload :=
  { webhook_id := "w1", event_type := "EVENT_END", timestamp := 0,
    event_count := 0, user_id := some "u1", events := [] }

/-- Fixture: deletion-notice data for a reservation over `[0, 120)`. -/
def delData : EventData :=
  { id := 7, start := 0, «end» := 120, resource := { name := "srv1" },
    keycloak_id := some "kc1" }

/-- Fixture: a deletion notice timestamped inside the reservation window. -/
def pDelActive : EventWebhookPayload :=
  { event_type := "EVENT_DELETED", timestamp := 60, webhook_id := "w2",
    data := delData }

/-- Fixture: a deletion notice timestamped after the reservation ended. -/
def pDelLate : EventWebhookPayload :=
  { event_type := "EVENT_DELETED", timestamp := 180, webhook_id := "w2",
    data := delData }

/-- Fixture: a raw event with exactly the required fields. -/
def rawEv1 : RawEvent :=
  { eventId := some "e1", eventStart := some 0, eventEnd := some 10,
    resourceId := some 1, resourceName := some "srv1",
    resourceType := some "server" }

/-- Fixture: a raw batch payload whose `eventCount` (5) disagrees with the
length of its `events` list (1). -/
def rawMismatch : RawWebhookPayload :=
  { webhookId := some "w1", eventType := some "EVENT_START",
    timestamp := some 0, eventCount := some 5, userId := some "u1",
    events := some [rawEv1] }

/-- Fixture: the validated form of `rawMismatch`. -/
def wpMismatch : WebhookPayload :=
  { webhook_id := "w1", event_type := "EVENT_START", timestamp := 0,
    event_count := 5, user_id := some "u1", events := [ev1] }

/-- Fixture: the userdata-secret creation always raises. -/
def kenvSecretFails : Kube.K8sEnv :=
  { createSecretResult := fun _ => Kube.CreateSecretResult.exn,
    patchSecretOk := fun _ => true, patchHostOk := fun _ => true }

theorem pyLower_event_start : pyLower "EVENT_START" = "event_start" := by
  decide

theorem hostCalls_append (a b : List Call) :
    hostCalls (a ++ b) = hostCalls a ++ hostCalls b := by
  simp [hostCalls, List.filter_append]

theorem hostCalls_provision_event (env : Env) (r : String)
    (ssh : Option String) (wid uid : String) (ei : Option String) :
    hostCalls (handleProvisionEvent env r ssh wid uid ei).2 =
      [Call.provisionHost r ssh] := by
  simp only [handleProvisionEvent, hostCalls]
  split <;> split <;> rfl

theorem hostCalls_deprovision_event (env : Env) (r : String)
    (ei : Option String) (wid uid : Option String) :
    hostCalls (handleDeprovisionEvent env r ei wid uid).2 =
      [Call.deprovisionHost r] := by
  simp only [handleDeprovisionEvent, hostCalls]
  split <;> rfl

theorem hostCalls_post_batch (env : Env) (evs : List Event)
    (ars : Option (List Event)) :
    hostCalls (postBatchProvisionActions env evs ars) = [] := by
  simp only [postBatchProvisionActions]
  split
  · cases ars <;> rfl
  · rfl

theorem provision_event_fst (env : Env) (r : String) (ssh : Option String)
    (wid uid : String) (ei : Option String) :
    (handleProvisionEvent env r ssh wid uid ei).1 = env.provisionOk r ei :=
  rfl

theorem deprovision_event_fst (env : Env) (r : String) (ei : Option String)
    (wid uid : Option String) :
    (handleDeprovisionEvent env r ei wid uid).1 = env.deprovisionOk r ei :=
  rfl

theorem startLoop_processed (env : Env) (ssh : Option String) (wid uid : String)
    (evs : List Event) :
    (startLoop env ssh wid uid evs).1 =
      (evs.filter (fun e => !(startFails env e))).length := by
  induction evs with
  | nil => rfl
  | cons e rest ih =>
    simp only [startLoop, provision_event_fst]
    split <;> rename_i h <;> simp [startFails, h, ih, List.filter_cons]

theorem startLoop_fails (env : Env) (ssh : Option String) (wid uid : String)
    (evs : List Event) :
    (startLoop env ssh wid uid evs).2.1 =
      (evs.filter (startFails env)).map
        (fun e => { event_id := e.event_id, resource_name := e.resource_name,
                    action := "provision" }) := by
  induction evs with
  | nil => rfl
  | cons e rest ih =>
    simp only [startLoop, provision_event_fst]
    split <;> rename_i h <;> simp [startFails, h, ih, List.filter_cons]

theorem startLoop_succ (env : Env) (ssh : Option String) (wid uid : String)
    (evs : List Event) :
    (startLoop env ssh wid uid evs).2.2.1 =
      evs.filter (fun e => !(startFails env e)) := by
  induction evs with
  | nil => rfl
  | cons e rest ih =>
    simp only [startLoop, provision_event_fst]
    split <;> rename_i h <;> simp [startFails, h, ih, List.filter_cons]

theorem startLoop_host (env : Env) (ssh : Option String) (wid uid : String)
    (evs : List Event) :
    hostCalls (startLoop env ssh wid uid evs).2.2.2 =
      evs.map (fun e => Call.provisionHost e.resource_name ssh) := by
  induction evs with
  | nil => rfl
  | cons e rest ih =>
    simp only [startLoop, provision_event_fst]
    split <;> rename_i h <;>
      simp [h, hostCalls_append, hostCalls_provision_event, ih]

theorem endLoop_processed (env : Env) (wid : String) (uid : Option String)
    (evs : List Event) :
    (endLoop env wid uid evs).1 =
      (evs.filter (fun e => !(endFails env e))).length := by
  induction evs with
  | nil => rfl
  | cons e rest ih =>
    simp only [endLoop, deprovision_event_fst]
    split <;> rename_i h <;> simp [endFails, h, ih, List.filter_cons]

theorem endLoop_fails (env : Env) (wid : String) (uid : Option String)
    (evs : List Event) :
    (endLoop env wid uid evs).2.1 =
      (evs.filter (endFails env)).map
        (fun e => { event_id := e.event_id, resource_name := e.resource_name,
                    action := "deprovision" }) := by
  induction evs with
  | nil => rfl
  | cons e rest ih =>
    simp only [endLoop, deprovision_event_fst]
    split <;> rename_i h <;> simp [endFails, h, ih, List.filter_cons]

theorem endLoop_host (env : Env) (wid : String) (uid : Option String)
    (evs : List Event) :
    hostCalls (endLoop env wid uid evs).2.2 =
      evs.map (fun e => Call.deprovisionHost e.resource_name) := by
  induction evs with
  | nil => rfl
  | cons e rest ih =>
    simp only [endLoop, deprovision_event_fst]
    split <;> rename_i h <;>
      simp [h, hostCalls_append, hostCalls_deprovision_event, ih]

theorem finishBatch_trace (p : WebhookPayload) (n : Nat)
    (fails : List FailedDetail) (tr : List Call) :
    (finishBatch p n fails tr).2 = tr := by
  simp only [finishBatch]
  split <;> rfl

theorem hostCalls_post_tr (env : Env) (succ : List Event)
    (ars : Option (List Event)) :
    hostCalls (if succ = [] then []
      else postBatchProvisionActions env succ ars) = [] := by
  split
  · rfl
  · exact hostCalls_post_batch env succ ars

theorem handleBatch_start_host (env : Env) (p : WebhookPayload)
    (ht : p.event_type = "EVENT_START") :
    hostCalls (handleBatch env p).2 =
      p.events.map
        (fun e => Call.provisionHost e.resource_name p.ssh_public_key) := by
  by_cases hemp : p.events = []
  · simp [handleBatch, hemp, hostCalls]
  · simp [handleBatch, hemp, ht, finishBatch_trace, hostCalls_append,
      startLoop_host, hostCalls_post_tr]

theorem handleBatch_end_host (env : Env) (p : WebhookPayload)
    (ht : p.event_type = "EVENT_END") :
    hostCalls (handleBatch env p).2 =
      p.events.map (fun e => Call.deprovisionHost e.resource_name) := by
  by_cases hemp : p.events = []
  · simp [handleBatch, hemp, hostCalls]
  · simp [handleBatch, hemp, ht, finishBatch_trace, endLoop_host]

theorem handleBatch_start_ok (env : Env) (p : WebhookPayload)
    (ht : p.event_type = "EVENT_START")
    (hall : p.events.filter (startFails env) = []) :
    (handleBatch env p).1 = HandlerResult.ok
      { status := "success",
        message := batchSuccessMessage (pyLower p.event_type)
          p.events.length p.user_id } := by
  by_cases hemp : p.events = []
  · simp [handleBatch, hemp]
  · have hflt : p.events.filter (fun e => !(startFails env e)) = p.events :=
      List.filter_eq_self.mpr (fun e he => by
        have hne := List.filter_eq_nil_iff.mp hall e he
        simp only [Bool.not_eq_true] at hne ⊢
        simp [hne])
    simp [handleBatch, hemp, ht, finishBatch, startLoop_fails,
      startLoop_processed, hall, hflt]

theorem handleBatch_end_ok (env : Env) (p : WebhookPayload)
    (ht : p.event_type = "EVENT_END")
    (hall : p.events.filter (endFails env) = []) :
    (handleBatch env p).1 = HandlerResult.ok
      { status := "success",
        message := batchSuccessMessage (pyLower p.event_type)
          p.events.length p.user_id } := by
  by_cases hemp : p.events = []
  · simp [handleBatch, hemp]
  · have hflt : p.events.filter (fun e => !(endFails env e)) = p.events :=
      List.filter_eq_self.mpr (fun e he => by
        have hne := List.filter_eq_nil_iff.mp hall e he
        simp only [Bool.not_eq_true] at hne ⊢
        simp [hne])
    simp [handleBatch, hemp, ht, finishBatch, endLoop_fails,
      endLoop_processed, hall, hflt]

theorem handleBatch_start_err (env : Env) (p : WebhookPayload)
    (ht : p.event_type = "EVENT_START")
    (hne : p.events.filter (startFails env) ≠ []) :
    (handleBatch env p).1 = HandlerResult.batchError 500 p.event_type
      (p.events.filter (startFails env)).length p.event_count
      ((p.events.filter (startFails env)).map
        (fun e => { event_id := e.event_id, resource_name := e.resource_name,
                    action := "provision" })) := by
  have hemp : p.events ≠ [] := by
    intro h
    exact hne (by simp [h])
  simp [handleBatch, hemp, ht, finishBatch, startLoop_fails, hne]

theorem handleBatch_end_err (env : Env) (p : WebhookPayload)
    (ht : p.event_type = "EVENT_END")
    (hne : p.events.filter (endFails env) ≠ []) :
    (handleBatch env p).1 = HandlerResult.batchError 500 p.event_type
      (p.events.filter (endFails env)).length p.event_count
      ((p.events.filter (endFails env)).map
        (fun e => { event_id := e.event_id, resource_name := e.resource_name,
                    action := "deprovision" })) := by
  have hemp : p.events ≠ [] := by
    intro h
    exact hne (by simp [h])
  simp [handleBatch, hemp, ht, finishBatch, endLoop_fails, hne]

theorem handleBatch_unknown (env : Env) (p : WebhookPayload)
    (h1 : p.event_type ≠ "EVENT_START") (h2 : p.event_type ≠ "EVENT_END") :
    handleBatch env p =
      (HandlerResult.ok
        { status := "success",
          message := batchSuccessMessage (pyLower p.event_type) 0 p.user_id },
       []) := by
  by_cases hemp : p.events = []
  · simp [handleBatch, hemp]
  · simp [handleBatch, hemp, h1, h2, finishBatch]


theorem handleDeletion_inactive (env : Env) (p : EventWebhookPayload)
    (ht : p.event_type = "EVENT_DELETED")
    (hna : ¬(p.data.start ≤ p.timestamp ∧ p.timestamp < p.data.«end»)) :
    handleDeletion env p =
      (HandlerResult.ok
        { status := "success",
          message := "No deprovision action taken for resource \x27" ++
            p.data.resource.name ++
            "\x27 as reservation is not currently active." },
       []) := by
  simp [handleDeletion, ht, hna]

/-- C3 (code bug): the deletion branch does evaluate the half-open
comparison `start <= now < end` at the notice's own `timestamp` field
(`api.py` line 346), and `is_active` has the claimed boundary semantics —
but on the concrete active notice (window `[0, 120)`, timestamp 60) the
handler raises `AttributeError` (`api.py` line 352 reads
`payload.data.keycloakId`; the pydantic attribute is `keycloak_id`) before
any collaborator call, so the activation check judges the notice active
and yet no deprovision call is attempted: the claimed
active-implies-deprovision gating is broken by the code slip, against the
code's own "Initiating deprovision" log line and the spec. -/
theorem c3_activation_window_bug :
    is_active pDelActive.timestamp pDelActive.data.start
      pDelActive.data.«end» = true ∧
    handleDeletion envAllOk pDelActive =
      (HandlerResult.unhandledException "AttributeError: keycloakId", []) ∧
    attemptsDeprovision (handleDeletion envAllOk pDelActive).2 = false ∧
    is_active 0 0 120 = true ∧
    is_active 120 0 120 = false ∧
    is_active 60 0 120 = true ∧
    is_active (-1) 0 120 = false := by
  decide

/-- C4: a deletion notice whose timestamp lies outside `[start, end)` issues
no collaborator call at all and returns a 200 success response with the
explanatory "no action taken" message — never an error. -/
theorem c4_inactive_deletion_noop (env : Env) (p : EventWebhookPayload)
    (ht : p.event_type = "EVENT_DELETED")
    (hna : ¬(p.data.start ≤ p.timestamp ∧ p.timestamp < p.data.«end»)) :
    handleDeletion env p =
      (HandlerResult.ok
        { status := "success",
          message := "No deprovision action taken for resource \x27" ++
            p.data.resource.name ++
            "\x27 as reservation is not currently active." },
       []) :=
  handleDeletion_inactive env p ht hna

/-- C4 witness: the late deletion notice (timestamp 180, window `[0, 120)`)
yields the no-op success with an empty collaborator trace. -/
theorem c4_inactive_deletion_noop_witness :
    pDelLate.event_type = "EVENT_DELETED" ∧
    ¬(pDelLate.data.start ≤ pDelLate.timestamp ∧
        pDelLate.timestamp < pDelLate.data.«end») ∧
    handleDeletion envAllOk pDelLate =
      (HandlerResult.ok
        { status := "success",
          message := "No deprovision action taken for resource \x27srv1\x27 as reservation is not currently active." },
       []) := by
  refine ⟨rfl, by decide, ?_⟩
  rw [c4_inactive_deletion_noop envAllOk pDelLate rfl (by decide)]
  decide

/-- C5: a batch payload with an empty events list returns the batch success
response reporting 0 events, regardless of its event type, and issues no
collaborator call whatsoever (empty trace). -/
theorem c5_empty_batch (env : Env) (p : WebhookPayload)
    (h : p.events = []) :
    handleBatch env p =
      (HandlerResult.ok
        { status := "success",
          message := batchSuccessMessage (pyLower p.event_type) 0 p.user_id },
       []) := by
  simp [handleBatch, h]

/-- C5 witness: the concrete empty END batch returns success with the
"0 events" message and an empty collaborator trace. -/
theorem c5_empty_batch_witness :
    pEmpty.events = [] ∧
    handleBatch envAllOk pEmpty =
      (HandlerResult.ok
        { status := "success",
          message := "Batch event_end initiated for 0 events for user u1." },
       []) := by
  refine ⟨rfl, ?_⟩
  rw [c5_empty_batch envAllOk pEmpty rfl]
  decide

/-- C1: for every START or END batch the handler issues exactly one forward
host-management call per event, in input order, with no short-circuit and
no compensating (rollback) call; when at least one per-resource call fails
the whole request fails with a 500 error carrying exactly the failed
`(event_id, resource_name, action)` triples — action `"provision"` for
START and `"deprovision"` for END — while the successful calls remain in
the issued trace; when none fail the request succeeds reporting all
`N = p.events.length` events processed. -/
theorem c1_batch_failure_partition (env : Env) (p : WebhookPayload) :
    (p.event_type = "EVENT_START" →
      hostCalls (handleBatch env p).2 =
        p.events.map
          (fun e => Call.provisionHost e.resource_name p.ssh_public_key) ∧
      (p.events.filter (startFails env) = [] →
        (handleBatch env p).1 = HandlerResult.ok
          { status := "success",
            message := batchSuccessMessage (pyLower p.event_type)
              p.events.length p.user_id }) ∧
      (p.events.filter (startFails env) ≠ [] →
        (handleBatch env p).1 = HandlerResult.batchError 500 p.event_type
          (p.events.filter (startFails env)).length p.event_count
          ((p.events.filter (startFails env)).map
            (fun e => { event_id := e.event_id,
                        resource_name := e.resource_name,
                        action := "provision" })))) ∧
    (p.event_type = "EVENT_END" →
      hostCalls (handleBatch env p).2 =
        p.events.map (fun e => Call.deprovisionHost e.resource_name) ∧
      (p.events.filter (endFails env) = [] →
        (handleBatch env p).1 = HandlerResult.ok
          { status := "success",
            message := batchSuccessMessage (pyLower p.event_type)
              p.events.length p.user_id }) ∧
      (p.events.filter (endFails env) ≠ [] →
        (handleBatch env p).1 = HandlerResult.batchError 500 p.event_type
          (p.events.filter (endFails env)).length p.event_count
          ((p.events.filter (endFails env)).map
            (fun e => { event_id := e.event_id,
                        resource_name := e.resource_name,
                        action := "deprovision" })))) :=
  ⟨fun ht => ⟨handleBatch_start_host env p ht,
    fun hall => handleBatch_start_ok env p ht hall,
    fun hne => handleBatch_start_err env p ht hne⟩,
   fun ht => ⟨handleBatch_end_host env p ht,
    fun hall => handleBatch_end_ok env p ht hall,
    fun hne => handleBatch_end_err env p ht hne⟩⟩

/-- C1 witness: a two-event START batch in which only `srv2` fails issues
both provision calls in order and fails the request with exactly the one
failed triple. -/
theorem c1_batch_failure_partition_witness :
    pStart2.event_type = "EVENT_START" ∧
    pStart2.events.filter (startFails envSrv2Fails) ≠ [] ∧
    hostCalls (handleBatch envSrv2Fails pStart2).2 =
      [Call.provisionHost "srv1" none, Call.provisionHost "srv2" none] ∧
    (handleBatch envSrv2Fails pStart2).1 =
      HandlerResult.batchError 500 pStart2.event_type
        (pStart2.events.filter (startFails envSrv2Fails)).length
        pStart2.event_count
        ((pStart2.events.filter (startFails envSrv2Fails)).map
          (fun e => { event_id := e.event_id,
                      resource_name := e.resource_name,
                      action := "provision" })) := by
  have h := c1_batch_failure_partition envSrv2Fails pStart2
  refine ⟨rfl, by decide, ?_, (h.1 rfl).2.2 (by decide)⟩
  rw [(h.1 rfl).1]
  decide

/-- C2 counterexample: a structurally valid batch payload with the
unrecognized event type `"EVENT_FOO"` and a non-empty events list is
handled as a 200 success (with the batch success message for 0 events and
no collaborator call), not as a 4xx `UnrecognizedEventType` error. -/
theorem c2_unknown_event_type_counterexample :
    handle_webhook envAllOk hmac0 none [] none (Payload.batch pUnknown) =
      (HandlerResult.ok
        { status := "success",
          message := "Batch event_foo initiated for 0 events for user u1." },
       []) := by
  decide

/-- C2 amended: a structurally valid batch payload whose event type is
neither `"EVENT_START"` nor `"EVENT_END"` is answered with the 200 batch
success response reporting 0 processed events (no collaborator call, no
error); the code has no `UnrecognizedEventType` failure path. -/
theorem c2_unknown_event_type_amended (env : Env) (p : WebhookPayload)
    (h1 : p.event_type ≠ "EVENT_START") (h2 : p.event_type ≠ "EVENT_END") :
    handleBatch env p =
      (HandlerResult.ok
        { status := "success",
          message := batchSuccessMessage (pyLower p.event_type) 0 p.user_id },
       []) :=
  handleBatch_unknown env p h1 h2

/-- C2 amended witness: the concrete `"EVENT_FOO"` batch instance. -/
theorem c2_unknown_event_type_amended_witness :
    pUnknown.event_type ≠ "EVENT_START" ∧
    pUnknown.event_type ≠ "EVENT_END" ∧
    handleBatch envAllOk pUnknown =
      (HandlerResult.ok
        { status := "success",
          message := batchSuccessMessage (pyLower pUnknown.event_type) 0
            pUnknown.user_id },
       []) :=
  ⟨by decide, by decide,
   c2_unknown_event_type_amended envAllOk pUnknown (by decide) (by decide)⟩

/-- C6: for a START batch in which every provision succeeds, the response
(status and body) is one and the same 200 success with the correct
processed count whatever the network-configuration flag and the
switch-configuration outcome (success, returned failure, or raised
exception) are — the right-hand side does not mention them. -/
theorem c6_network_failure_isolation (env : Env) (p : WebhookPayload)
    (b : Bool) (o : NetOutcome)
    (ht : p.event_type = "EVENT_START")
    (hall : ∀ e ∈ p.events,
      env.provisionOk e.resource_name (some e.event_id) = true) :
    (handleBatch { env with networkConfigEnabled := b, netOutcome := o } p).1 =
      HandlerResult.ok
        { status := "success",
          message := batchSuccessMessage "event_start" p.events.length
            p.user_id } := by
  have hflt : p.events.filter
      (startFails { env with networkConfigEnabled := b, netOutcome := o }) =
      [] :=
    List.filter_eq_nil_iff.mpr (fun e he => by simp [startFails, hall e he])
  have h := handleBatch_start_ok
    { env with networkConfigEnabled := b, netOutcome := o } p ht hflt
  rw [h, ht, pyLower_event_start]

/-- C6 witness: with network configuration enabled and the switch call
raising, the all-success two-event START batch still yields the plain 200
success body. -/
theorem c6_network_failure_isolation_witness :
    pStart2.event_type = "EVENT_START" ∧
    (∀ e ∈ pStart2.events,
      envAllOk.provisionOk e.resource_name (some e.event_id) = true) ∧
    (handleBatch
      { envAllOk with
        networkConfigEnabled := true
        netOutcome := NetOutcome.raised } pStart2).1 =
      HandlerResult.ok
        { status := "success",
          message := batchSuccessMessage "event_start" pStart2.events.length
            pStart2.user_id } :=
  ⟨rfl, by decide,
   c6_network_failure_isolation envAllOk pStart2 true NetOutcome.raised rfl
     (by decide)⟩

/-- C7: with no configured secret (unset or empty) `verify_signature`
accepts every body and every header, absent included; with a configured
non-empty secret and an absent signature header, the request is rejected
with a 403 authentication failure and an empty collaborator trace — no
collaborator call is made, for every payload and environment. -/
theorem c7_signature_gate :
    (∀ (hm : String → List Nat → String) (body : List Nat)
        (hdr : Option String), verify_signature hm none body hdr = true) ∧
    (∀ (hm : String → List Nat → String) (body : List Nat)
        (hdr : Option String),
      verify_signature hm (some "") body hdr = true) ∧
    (∀ (env : Env) (hm : String → List Nat → String) (s : String)
        (body : List Nat) (payload : Payload), s ≠ "" →
      handle_webhook env hm (some s) body none payload =
        (HandlerResult.authError 403 "Invalid webhook signature", [])) := by
  refine ⟨fun hm body hdr => rfl, fun hm body hdr => rfl, ?_⟩
  intro env hm s body payload hs
  simp [handle_webhook, verifyWebhookSignatureGate, WebhookSecurity.verify, hs]

/-- C7 witness: a concrete request with secret `"topsecret"` and no
signature header is rejected 403 with no collaborator call. -/
theorem c7_signature_gate_witness :
    ("topsecret" : String) ≠ "" ∧
    handle_webhook envAllOk hmac0 (some "topsecret") [1, 2, 3] none
      (Payload.batch pStart2) =
      (HandlerResult.authError 403 "Invalid webhook signature", []) :=
  ⟨by decide,
   c7_signature_gate.2.2 envAllOk hmac0 "topsecret" [1, 2, 3]
     (Payload.batch pStart2) (by decide)⟩

/-- C9 counterexample: for the two-event all-success START batch the body
message is "Batch event_start initiated for 2 events for user u1." — the
action is named by the lowercased event type, not by the word "start". -/
theorem c9_success_message_counterexample :
    (handleBatch envAllOk pStart2).1 = HandlerResult.ok
      { status := "success",
        message := "Batch event_start initiated for 2 events for user u1." } ∧
    "Batch event_start initiated for 2 events for user u1." ≠
      "Batch start initiated for 2 events for user u1." := by
  exact ⟨by decide, by decide⟩

/-- C9 amended: a two-event START batch whose provisions all succeed (with
a truthy user id) returns 200 with body
`{"status": "success", "message": batchSuccessMessage "event_start" 2 user_id}`,
i.e. the message names the action as `"event_start"` (the lowercased
event-type constant), not `"start"`. -/
theorem c9_success_message_amended (env : Env) (p : WebhookPayload)
    (ht : p.event_type = "EVENT_START")
    (hall : p.events.filter (startFails env) = [])
    (hlen : p.events.length = 2) :
    (handleBatch env p).1 = HandlerResult.ok
      { status := "success",
        message := batchSuccessMessage "event_start" 2 p.user_id } := by
  have h := handleBatch_start_ok env p ht hall
  rw [h, ht, pyLower_event_start, hlen]

/-- C9 amended witness: the concrete two-event batch. -/
theorem c9_success_message_amended_witness :
    pStart2.events.filter (startFails envAllOk) = [] ∧
    pStart2.events.length = 2 ∧
    (handleBatch envAllOk pStart2).1 = HandlerResult.ok
      { status := "success",
        message := batchSuccessMessage "event_start" 2 pStart2.user_id } :=
  ⟨by decide, by decide,
   c9_success_message_amended envAllOk pStart2 rfl (by decide) (by decide)⟩


/-- C8 counterexample: the raw batch payload `rawMismatch`, whose
`eventCount` field is 5 while its events list has length 1, validates
successfully (no `ValidationError`), with the mismatching count kept. -/
theorem c8_event_count_counterexample :
    rawMismatch.eventCount = some 5 ∧
    (rawMismatch.events.getD []).length = 1 ∧
    validateWebhookPayload rawMismatch = Except.ok wpMismatch ∧
    wpMismatch.event_count = 5 ∧ wpMismatch.events.length = 1 :=
  ⟨rfl, rfl, rfl, rfl, rfl⟩

/-- C8 amended: `WebhookPayload` validation never cross-checks
`event_count` against the length of `events`: the raw count is passed
through unchanged into the validated payload, and replacing it by any
other integer preserves successful validation with only the count
changed — a mismatch is neither rejected nor corrected. -/
theorem c8_event_count_amended :
    (∀ (r : RawWebhookPayload) (p : WebhookPayload),
      validateWebhookPayload r = Except.ok p →
        r.eventCount = some p.event_count) ∧
    (∀ (r : RawWebhookPayload) (p : WebhookPayload) (c : Int),
      validateWebhookPayload r = Except.ok p →
        validateWebhookPayload { r with eventCount := some c } =
          Except.ok { p with event_count := c }) := by
  constructor
  · intro r p h
    obtain ⟨wid, et, ts, ec, uid, un, em, ssh, evs, ars⟩ := r
    simp only [validateWebhookPayload] at h
    cases wid <;> try exact Except.noConfusion h
    cases et <;> try exact Except.noConfusion h
    cases ts <;> try exact Except.noConfusion h
    cases ec <;> try exact Except.noConfusion h
    cases evs <;> try exact Except.noConfusion h
    rename_i l
    dsimp only at h
    cases hm : l.mapM validateEvent <;> rw [hm] at h <;>
      try exact Except.noConfusion h
    dsimp only at h
    cases ars
    · simp only [Except.ok.injEq] at h
      subst h
      rfl
    · rename_i al
      dsimp only at h
      cases ha : al.mapM validateEvent <;> rw [ha] at h <;>
        try exact Except.noConfusion h
      simp only [Except.ok.injEq] at h
      subst h
      rfl
  · intro r p c h
    obtain ⟨wid, et, ts, ec, uid, un, em, ssh, evs, ars⟩ := r
    simp only [validateWebhookPayload] at h ⊢
    cases wid <;> try exact Except.noConfusion h
    cases et <;> try exact Except.noConfusion h
    cases ts <;> try exact Except.noConfusion h
    cases ec <;> try exact Except.noConfusion h
    cases evs <;> try exact Except.noConfusion h
    rename_i l
    dsimp only at h ⊢
    cases hm : l.mapM validateEvent with
    | error e =>
      rw [hm] at h
      exact Except.noConfusion h
    | ok evs2 =>
      rw [hm] at h
      dsimp only at h ⊢
      cases ars with
      | none =>
        simp only [Except.ok.injEq] at h
        subst h
        rfl
      | some al =>
        dsimp only at h ⊢
        cases ha : al.mapM validateEvent with
        | error e2 =>
          rw [ha] at h
          exact Except.noConfusion h
        | ok as2 =>
          rw [ha] at h
          simp only [Except.ok.injEq] at h
          subst h
          rfl

/-- C8 amended witness: for the mismatching raw payload, validation
succeeds, the count passes through, and replacing it by 99 still
validates. -/
theorem c8_event_count_amended_witness :
    validateWebhookPayload rawMismatch = Except.ok wpMismatch ∧
    rawMismatch.eventCount = some wpMismatch.event_count ∧
    validateWebhookPayload { rawMismatch with eventCount := some 99 } =
      Except.ok { wpMismatch with event_count := 99 } := by
  have h : validateWebhookPayload rawMismatch = Except.ok wpMismatch := rfl
  exact ⟨h, c8_event_count_amended.1 rawMismatch wpMismatch h,
    c8_event_count_amended.2 rawMismatch wpMismatch 99 h⟩

theorem create_or_update_no_host_patch (kenv : Kube.K8sEnv)
    (bmh ssh : String) :
    ∀ op ∈ (Kube.create_or_update kenv bmh ssh).2,
      ∀ n patch, op ≠ Kube.K8sOp.patchHost n patch := by
  intro op hop n patch
  simp only [Kube.create_or_update] at hop
  cases hcr : kenv.createSecretResult (bmh ++ "-userdata") <;>
    rw [hcr] at hop
  · simp only [List.mem_singleton] at hop
    subst hop
    simp
  · rename_i status
    by_cases h409 : status = 409 <;> simp only [h409, if_true, if_false,
      reduceIte, List.mem_singleton, List.mem_cons,
      List.not_mem_nil, or_false] at hop
    · rcases hop with h | h <;> subst h <;> simp
    · subst hop
      simp
  · simp only [List.mem_singleton] at hop
    subst hop
    simp

/-- C10: when `provision` is called with a non-empty SSH key and the
userdata-secret create-or-update fails, `provision` returns `false` with
exactly the secret-manager trace, and no `patchHost` operation on the
BareMetalHost appears in the issued operations — the provisioning patch is
attempted only after the secret operation has succeeded. -/
theorem c10_secret_failure_blocks_patch (kenv : Kube.K8sEnv)
    (bmh_name image_url k : String) (checksum checksum_type : Option String)
    (hk : k ≠ "")
    (hfail : (Kube.create_or_update kenv bmh_name k).1 = false) :
    Kube.provision kenv bmh_name image_url (some k) checksum checksum_type =
      (false, (Kube.create_or_update kenv bmh_name k).2) ∧
    ∀ op ∈ (Kube.provision kenv bmh_name image_url (some k) checksum
        checksum_type).2,
      ∀ n patch, op ≠ Kube.K8sOp.patchHost n patch := by
  have heq : Kube.provision kenv bmh_name image_url (some k) checksum
      checksum_type = (false, (Kube.create_or_update kenv bmh_name k).2) := by
    simp [Kube.provision, hk, hfail]
  refine ⟨heq, ?_⟩
  rw [heq]
  exact create_or_update_no_host_patch kenv bmh_name k

/-- C10 witness: with secret creation raising, a concrete provision call
with a non-empty key returns `false` having issued only the secret
attempt. -/
theorem c10_secret_failure_blocks_patch_witness :
    ("ssh-rsa AAA" : String) ≠ "" ∧
    (Kube.create_or_update kenvSecretFails "srv1" "ssh-rsa AAA").1 = false ∧
    Kube.provision kenvSecretFails "srv1" "img" (some "ssh-rsa AAA") none
      none =
      (false, (Kube.create_or_update kenvSecretFails "srv1" "ssh-rsa AAA").2) :=
  ⟨by decide, by decide,
   (c10_secret_failure_blocks_patch kenvSecretFails "srv1" "img"
     "ssh-rsa AAA" none none (by decide) (by decide)).1⟩
